import Mathlib

/-!
Shallow embedding of the query-and-memory resolution pipeline of the
"second brain" repository (src/main.py, src/core/memory_manager.py,
src/core/vector_store.py, src/core/ai_engine.py) together with theorems
settling the claims C1..C10 about it.

Modelling conventions:
* Python dicts are insertion-ordered association lists with unique keys
  (`dictInsert` replaces in place, `dictGet` returns the first binding).
* Strings are modelled over their character lists; only the ASCII behaviour
  of `str.lower`, `re`'s `\w`/`\s` classes and `str.strip` is modelled,
  which covers every input appearing in the source and in the theorems.
* Nondeterministic externals (uuid4, datetime.now(), hash(), the LLM call,
  embedding distances) are parameters (`Env`, `dist`) of the embedding.
* File/JSON persistence of the per-user memory stores is modelled as a pure
  map from user id to store; I/O never fails in the model (the
  `PersistenceError -> return False` contract is out of scope of the claims).
* A raised Python exception is an `Except.error` carrying the CPython
  (3.10+ qualname style) message text.
-/

/-- The apostrophe character, used to build the many source strings that
contain one without writing a quote inside a string literal. -/
def apos : String := (Char.ofNat 39).toString

/-! ## Python string primitives -/

/-- Python `\s` (ASCII part): space, tab, newline, carriage return,
vertical tab, form feed. -/
def isSpaceChar (c : Char) : Bool :=
  c == ' ' || c == '\t' || c == '\n' || c == '\r' ||
  c == Char.ofNat 11 || c == Char.ofNat 12

/-- Python `\w` (ASCII part): alphanumeric or underscore. -/
def isWordChar (c : Char) : Bool := c.isAlphanum || c == '_'

/-- `str.lower` (ASCII). -/
def lowerStr (s : String) : String := ⟨s.data.map Char.toLower⟩

/-- `str.upper` (ASCII). -/
def upperStr (s : String) : String := ⟨s.data.map Char.toUpper⟩

/-- `str.strip()` on a character list. -/
def stripChars (l : List Char) : List Char :=
  ((l.dropWhile isSpaceChar).reverse.dropWhile isSpaceChar).reverse

/-- `str.strip()`. -/
def pyStrip (s : String) : String := ⟨stripChars s.data⟩

/-- Does `pat` occur at the head of `l`? -/
def charsStartWith : List Char → List Char → Bool
  | [], _ => true
  | _ :: _, [] => false
  | p :: ps, c :: cs => p == c && charsStartWith ps cs

/-- Python `needle in hay` on character lists (empty needle matches). -/
def charsContains (hay needle : List Char) : Bool :=
  if charsStartWith needle hay then true
  else match hay with
    | [] => false
    | _ :: t => charsContains t needle

/-- Python `needle in hay` for strings. -/
def strContains (hay needle : String) : Bool := charsContains hay.data needle.data

/-- `str.replace(' ', '_')`. -/
def replaceSpaceUnderscore (s : String) : String :=
  ⟨s.data.map (fun c => if c == ' ' then '_' else c)⟩

/-- `re.sub(r'\s+', '_', ·)`: replace every maximal whitespace run with one
underscore.  `inSp` records whether the previous character was whitespace. -/
def collapseWsAux : Bool → List Char → List Char
  | _, [] => []
  | inSp, c :: rest =>
    if isSpaceChar c then
      if inSp then collapseWsAux true rest
      else '_' :: collapseWsAux true rest
    else c :: collapseWsAux false rest

/-- Helper for `pySplitWs`: `cur` is the current word, reversed. -/
def wordsAux : List Char → List Char → List String
  | [], cur => if cur.isEmpty then [] else [String.mk cur.reverse]
  | c :: rest, cur =>
    if isSpaceChar c then
      if cur.isEmpty then wordsAux rest []
      else String.mk cur.reverse :: wordsAux rest []
    else wordsAux rest (c :: cur)

/-- Python `str.split()` (split on whitespace runs, dropping empties). -/
def pySplitWs (s : String) : List String := wordsAux s.data []

/-- `"sep".join(l)`. -/
def pyJoin (sep : String) : List String → String
  | [] => ""
  | [x] => x
  | x :: y :: t => x ++ sep ++ pyJoin sep (y :: t)

/-! ## Python dict as an insertion-ordered association list -/

/-- First binding of `k`, like `d[k]` / `d.get(k)`. -/
def dictGet {α : Type} : List (String × α) → String → Option α
  | [], _ => none
  | (k', v) :: t, k => if k' == k then some v else dictGet t k

/-- Python `k in d`. -/
def dictMem {α : Type} (l : List (String × α)) (k : String) : Bool :=
  (dictGet l k).isSome

/-- Python `d[k] = v`: replace in place if present, else append. -/
def dictInsert {α : Type} : List (String × α) → String → α → List (String × α)
  | [], k, v => [(k, v)]
  | (k', v') :: t, k, v =>
    if k' == k then (k', v) :: t else (k', v') :: dictInsert t k v

/-- Python `del d[k]` (first binding). -/
def dictDel {α : Type} : List (String × α) → String → List (String × α)
  | [], _ => []
  | (k', v') :: t, k => if k' == k then t else (k', v') :: dictDel t k

/-! ## MemoryManager (src/core/memory_manager.py) -/

/-- One stored memory (`memory_data` built in `MemoryManager.memorize`). -/
structure Rec where
  id : String
  original_key : String
  value : String
  description : String
  created_at : String
  last_accessed : String
  category : String
  user_id : String
  deriving DecidableEq, Repr

/-- One user's memory store: category → standardized key → record. -/
abbrev Store := List (String × List (String × Rec))

/-- user id → store; one JSON file per user under `memories/`. -/
abbrev MemFS := List (String × Store)

instance : DecidableEq Store :=
  inferInstanceAs (DecidableEq (List (String × List (String × Rec))))

instance : DecidableEq MemFS :=
  inferInstanceAs (DecidableEq (List (String × Store)))

/-- The default (empty) store returned by `_load_user_memories` when the
user's file does not exist. -/
def defaultStore : Store :=
  [("personal_info", []), ("contacts", []), ("financial", []),
   ("borrowed_items", []), ("important_notes", []), ("credentials", []),
   ("custom_memories", [])]

/-- `MemoryManager._load_user_memories`. -/
def load_user_memories (fs : MemFS) (uid : String) : Store :=
  (dictGet fs uid).getD defaultStore

/-- `MemoryManager._save_user_memories` (always succeeds in the model). -/
def save_user_memories (fs : MemFS) (uid : String) (st : Store) : MemFS :=
  dictInsert fs uid st

/-- `MemoryManager.create_memory_key`: lowercase, strip, remove all
non-word/non-space characters, collapse whitespace runs to `_`. -/
def create_memory_key (text : String) : String :=
  let key := stripChars (lowerStr text).data
  let key := key.filter (fun c => isWordChar c || isSpaceChar c)
  ⟨collapseWsAux false key⟩

example : create_memory_key "John Smith Phone" = "john_smith_phone" := by decide
example : create_memory_key ("John" ++ apos ++ "s Phone") = "johns_phone" := by decide
example : create_memory_key "  My  Phone!! " = "my_phone" := by decide

/-- Nondeterministic externals of one pipeline step: `uuid.uuid4()[:8]`,
`datetime.now().isoformat()`, Python `hash()` (process-salted), the LLM
completion call, and which LLM clients are configured. -/
structure Env where
  newId : String
  now : String
  hashFn : String → Nat
  llm : String → String → String
  hasGroq : Bool
  hasOpenai : Bool

/-- `MemoryManager.memorize(user_id, category, key, value, description="")`.
Returns `(success, fs')`; the model's save always succeeds. -/
def memorize (env : Env) (user_id category key value description : String)
    (fs : MemFS) : Bool × MemFS :=
  let standardized_key := create_memory_key key
  let memory_data : Rec :=
    { id := env.newId, original_key := key, value := value,
      description := description, created_at := env.now,
      last_accessed := env.now, category := category, user_id := user_id }
  let memories := load_user_memories fs user_id
  -- `if category not in memories: memories[category] = {}`
  let memories := if dictMem memories category then memories
                  else dictInsert memories category []
  let catData := (dictGet memories category).getD []
  let memories := dictInsert memories category
                    (dictInsert catData standardized_key memory_data)
  (true, save_user_memories fs user_id memories)

/-- `MemoryManager.memorize_contact(user_id, name, phone, relationship="")`. -/
def memorize_contact (env : Env) (user_id name phone relationship : String)
    (fs : MemFS) : Bool × MemFS :=
  let key := name ++ "_phone"
  let description := "Phone number for " ++ name ++
    (if relationship != "" then " (" ++ relationship ++ ")" else "")
  memorize env user_id "contacts" key phone description fs

/-- `MemoryManager.memorize_debt(user_id, person, amount, currency="rupees",
notes="")`; the amount is modelled already formatted as `str(amount)`. -/
def memorize_debt (env : Env) (user_id person amount currency notes : String)
    (fs : MemFS) : Bool × MemFS :=
  let key := person ++ "_debt"
  let description := person ++ " owes " ++ amount ++ " " ++ currency ++
    (if notes != "" then " - " ++ notes else "")
  memorize env user_id "financial" key amount description fs

/-- `MemoryManager.memorize_borrowed_item(user_id, item, person, action,
notes="")`. -/
def memorize_borrowed_item (env : Env) (user_id item person action notes : String)
    (fs : MemFS) : Bool × MemFS :=
  let key := item ++ "_" ++ person
  let dv : String × String :=
    if action == "borrowed_from" then
      ("Borrowed " ++ item ++ " from " ++ person ++ ". Need to return it.",
       "Borrowed from " ++ person)
    else if action == "lent_to" then
      ("Lent " ++ item ++ " to " ++ person ++ ". Need to get it back.",
       "Lent to " ++ person)
    else (item ++ " - " ++ person ++ ": " ++ action, action)
  let description := if notes != "" then dv.1 ++ " | Notes: " ++ notes else dv.1
  memorize env user_id "borrowed_items" key dv.2 description fs

/-- The fuzzy scan of `MemoryManager.recall` without a category: first
category with an exact standardized-key hit, else the first record in
category order whose key fuzzily matches.  Returns `(category, key, record)`. -/
def recallScan (standardized_key : String) : Store →
    Option (String × String × Rec)
  | [] => none
  | (cat_name, category_data) :: rest =>
    if dictMem category_data standardized_key then
      match dictGet category_data standardized_key with
      | some memory => some (cat_name, standardized_key, memory)
      | none => none
    else
      match category_data.find? (fun km =>
          strContains km.1 standardized_key ||
          strContains standardized_key km.1 ||
          strContains (lowerStr km.2.original_key) standardized_key) with
      | some (k, memory) => some (cat_name, k, memory)
      | none => recallScan standardized_key rest

/-- `MemoryManager.recall(user_id, key, category=None)` (named `recall_` here:
`recall` is a reserved command name).

With a category, the source tests
`standardized_key in self.memories[category]` (memory_manager.py:183);
`self.memories` is not an attribute of `MemoryManager`, so when the category
exists the lookup raises `AttributeError`, caught at line 210 → `None`;
when it does not, line 188 returns `None`.  Either way no record is returned
and the store is untouched.  Without a category, the first (exact or fuzzy)
hit has its `last_accessed` refreshed and saved. -/
def recall_ (env : Env) (user_id key : String) (category : Option String)
    (fs : MemFS) : Option Rec × MemFS :=
  let standardized_key := create_memory_key key
  let memories := load_user_memories fs user_id
  match category with
  | some c =>
    if dictMem memories c then
      -- AttributeError on `self.memories[category]`, caught → None
      (none, fs)
    else (none, fs)
  | none =>
    match recallScan standardized_key memories with
    | some (cat_name, k, memory) =>
      let memory := { memory with last_accessed := env.now }
      let catData := (dictGet memories cat_name).getD []
      let memories := dictInsert memories cat_name (dictInsert catData k memory)
      (some memory, save_user_memories fs user_id memories)
    | none => (none, fs)

/-- The category loop of `MemoryManager.forget` without a category: delete
from the first category containing the exact key, pruning the category if it
becomes empty. -/
def forgetScan (key : String) : Store → Option Store
  | [] => none
  | (cat_name, category_data) :: rest =>
    if dictMem category_data key then
      let category_data := dictDel category_data key
      some (if category_data.isEmpty then rest
            else (cat_name, category_data) :: rest)
    else match forgetScan key rest with
      | some rest' => some ((cat_name, category_data) :: rest')
      | none => none

/-- `MemoryManager.forget(user_id, key, category=None)`: exact (verbatim,
non-normalized) key deletion only. -/
def forget (user_id key : String) (category : Option String) (fs : MemFS) :
    Bool × MemFS :=
  let memories := load_user_memories fs user_id
  match category with
  | some c =>
    match dictGet memories c with
    | some category_data =>
      if dictMem category_data key then
        let category_data := dictDel category_data key
        let memories := if category_data.isEmpty then dictDel memories c
                        else dictInsert memories c category_data
        (true, save_user_memories fs user_id memories)
      else (false, fs)
    | none => (false, fs)
  | none =>
    match forgetScan key memories with
    | some memories => (true, save_user_memories fs user_id memories)
    | none => (false, fs)

/-- Keys of an association list are pairwise distinct (the invariant every
Python dict satisfies by construction). -/
def keysNodup {α : Type} : List (String × α) → Bool
  | [] => true
  | (k, _) :: t => !(dictMem t k) && keysNodup t

/-- A well-formed store: distinct category names, distinct keys within
each category. -/
def storeWF (st : Store) : Bool :=
  keysNodup st && st.all (fun c => keysNodup c.2)

/-- A character that `create_memory_key` can emit: a word character that is
neither whitespace nor an uppercase ASCII letter (underscore qualifies). -/
def standardChar (c : Char) : Bool :=
  isWordChar c && !isSpaceChar c && !c.isUpper

/-- A character that makes a key text differ from its standardized form:
uppercase, whitespace, or punctuation (non-word). -/
def badKeyChar (c : Char) : Bool :=
  c.isUpper || isSpaceChar c || !isWordChar c

def hasBadChar (s : String) : Bool := s.data.any badKeyChar

def standardKey (s : String) : Bool := s.data.all standardChar

/-- Every key of every category is in standardized form — the invariant of
stores whose keys were all written through `memorize`. -/
def storeStandardized (st : Store) : Bool :=
  st.all (fun c => c.2.all (fun km => standardKey km.1))

/-! ## VectorStore (src/core/vector_store.py) -/

/-- The metadata dict of an indexed chunk.  The source stores heterogeneous
dicts; this record carries exactly the fields the embedded code reads or
writes.  `chunk_index`/`chunk_count` are `Option` because `_prepare_context`
tests `'chunk_index' in item['metadata']`; `user_id` is `Option` because
`metadata.get('user_id')` may be absent. -/
structure Meta where
  file_path : String
  file_name : String
  file_type : String
  ingestion_time : String
  file_size : Nat
  chunk_index : Option Nat
  chunk_count : Option Nat
  user_id : Option String
  is_personal_memory : Bool
  deriving DecidableEq, Repr

/-- A document handed to `VectorStore.add_documents`. -/
structure Document where
  content : String
  metadata : Meta
  chunks : List String
  deriving DecidableEq, Repr

/-- One stored `(id, document text, metadata)` entry of the chroma
collection (the embedding vector itself is abstracted into the ranking
parameter `dist` of `search`). -/
structure Entry where
  id : String
  document : String
  metadata : Meta
  deriving DecidableEq, Repr

abbrev Collection := List Entry

/-- A formatted result of `VectorStore.search`. -/
structure SearchResult where
  content : String
  metadata : Meta
  distance : Nat
  deriving DecidableEq, Repr

/-- A chroma `where` filter; the source builds `{"user_id": u}` and
`{"$and": [f, {"user_id": u}]}`. -/
inductive Where where
  | userIs (u : String)
  | andW (a b : Where)
  deriving DecidableEq, Repr

def matchesWhere : Where → Meta → Bool
  | .userIs u, m => m.user_id == some u
  | .andW a b, m => matchesWhere a m && matchesWhere b m

def matchesWhereOpt : Option Where → Meta → Bool
  | none, _ => true
  | some w, m => matchesWhere w m

/-- Python truthiness of an optional string argument (`None` and `""` are
falsy). -/
def pyTruthy : Option String → Bool
  | none => false
  | some s => s != ""

/-- Stable insertion into a list sorted by `le`. -/
def insertSorted {α : Type} (le : α → α → Bool) (x : α) : List α → List α
  | [] => [x]
  | y :: t => if le x y then x :: y :: t else y :: insertSorted le x t

/-- Stable sort by `le`; models chroma returning nearest neighbours in
ascending distance order. -/
def sortByLe {α : Type} (le : α → α → Bool) : List α → List α
  | [] => []
  | x :: t => insertSorted le x (sortByLe le t)

/-- `VectorStore.add_documents(documents, user_id=None)`: every chunk of
every document is embedded and appended with metadata copied from the
document plus `chunk_index`, `chunk_count` and (when `user_id` is truthy)
`user_id`.  Fresh uuid ids are modelled from `env.newId`. -/
def add_documents (env : Env) (coll : Collection) (documents : List Document)
    (user_id : Option String) : Collection :=
  coll ++ documents.flatMap (fun doc =>
    (List.range doc.chunks.length).zip doc.chunks |>.map (fun ic =>
      { id := env.newId ++ "_" ++ toString ic.1,
        document := ic.2,
        metadata :=
          { doc.metadata with
            chunk_index := some ic.1,
            chunk_count := some doc.chunks.length,
            user_id := if pyTruthy user_id then user_id
                       else doc.metadata.user_id } }))

/-- `VectorStore.search(query, n_results=5, filters=None, user_id=None)`.
`dist` abstracts the embedding distance between the query and an entry;
chroma's `collection.query` is modelled as: keep the entries matching the
`where` filter, order by ascending distance, take `n_results`. -/
def search (dist : String → Entry → Nat) (coll : Collection) (query : String)
    (n_results : Nat) (filters : Option Where) (user_id : Option String) :
    List SearchResult :=
  let filters :=
    match user_id, filters with
    | some u, some f => if pyTruthy (some u) then some (.andW f (.userIs u))
                        else some f
    | some u, none => if pyTruthy (some u) then some (.userIs u) else none
    | none, f => f
  let candidates := coll.filter (fun e => matchesWhereOpt filters e.metadata)
  let ranked := sortByLe (fun a b => dist query a ≤ dist query b) candidates
  (ranked.take n_results).map (fun e =>
    { content := e.document, metadata := e.metadata, distance := dist query e })

/-! ## Memory Exporter (`MemoryManager.export_memories_to_vector`) -/

/-- The serialization loop of `export_memories_to_vector`: one section per
non-empty category except `contacts`, each line
`- {key}: {value}` plus ` ({description})` when the description is
non-empty. -/
def exportCats : Store → String
  | [] => ""
  | (category_name, category_data) :: rest =>
    (if category_data.isEmpty then ""
     else if category_name == "contacts" then ""
     else
       "=== " ++ upperStr category_name ++ " ===\n" ++
       String.join (category_data.map (fun km =>
         "- " ++ km.1 ++ ": " ++ km.2.value ++
         (if km.2.description != "" then " (" ++ km.2.description ++ ")" else "") ++
         "\n")) ++
       "\n") ++
    exportCats rest

/-- `MemoryManager.export_memories_to_vector(vector_store, user_id)`.
Step 1 deletes every chunk with `file_name == 'personal_memories'` and this
`user_id`; step 2 serializes the store; step 3 inserts the text as a single
chunk unless the guard at memory_manager.py:445 rejects it.  Note the guard
compares against only the first header line, while two more header lines are
appended unconditionally. -/
def export_memories_to_vector (env : Env) (fs : MemFS) (coll : Collection)
    (user_id : String) : Bool × Collection :=
  let coll := coll.filter (fun e =>
    !(e.metadata.file_name == "personal_memories" &&
      e.metadata.user_id == some user_id))
  let memories := load_user_memories fs user_id
  let header1 := "PERSONAL MEMORIES AND INFORMATION FOR USER " ++ user_id ++ ":\n\n"
  let memories_text := header1 ++
    "=== USER" ++ apos ++ "S PERSONAL INFORMATION ===\n" ++
    "This section contains personal details for user " ++ user_id ++ ".\n\n" ++
    exportCats memories
  if pyStrip memories_text != "" && memories_text != header1 then
    let memory_document : Document :=
      { content := memories_text,
        metadata :=
          { file_path := "personal_memory_system_user_" ++ user_id,
            file_name := "personal_memories",
            file_type := ".memory",
            ingestion_time := env.now,
            file_size := memories_text.length,
            chunk_index := none, chunk_count := none,
            user_id := some user_id,
            is_personal_memory := true },
        chunks := [memories_text] }
    (true, add_documents env coll [memory_document] (some user_id))
  else (false, coll)

/-! ## A small backtracking regex engine with CPython `re` semantics

The intent resolver is a cascade of `re.search` calls.  The pattern language
actually used only quantifies single-character classes (`\s+`, `\w+`, `.+?`,
`\d{10}`, `[-\.\s]??`, `.*`, `.*?`), so the engine below supports exactly:
character classes, concatenation, left-preferring alternation, greedy/lazy
option, greedy/lazy class star/plus, fixed class repetition and numbered
capture groups — with Python's leftmost, backtracking preference order. -/

inductive RE where
  | eps
  | cls (p : Char → Bool)
  | seq (a b : RE)
  | alt (a b : RE)
  | optG (a : RE)
  | optL (a : RE)
  | starG (p : Char → Bool)
  | starL (p : Char → Bool)
  | plusG (p : Char → Bool)
  | plusL (p : Char → Bool)
  | repN (p : Char → Bool) (n : Nat)
  | grp (i : Nat) (a : RE)

/-- Greedy class star: prefer consuming as many `p`-characters as possible,
then fall back one at a time. -/
def starGRun {α : Type} (p : Char → Bool) (k : List Char → Option α) :
    List Char → Option α
  | [] => k []
  | c :: rest =>
    if p c then
      match starGRun p k rest with
      | some r => some r
      | none => k (c :: rest)
    else k (c :: rest)

/-- Lazy class star: prefer consuming as few `p`-characters as possible. -/
def starLRun {α : Type} (p : Char → Bool) (k : List Char → Option α) :
    List Char → Option α
  | [] => k []
  | c :: rest =>
    match k (c :: rest) with
    | some r => some r
    | none => if p c then starLRun p k rest else none

/-- Exactly `n` class characters. -/
def repRun {α : Type} (p : Char → Bool) : Nat → (List Char → Option α) →
    List Char → Option α
  | 0, k, l => k l
  | n + 1, k, l =>
    match l with
    | [] => none
    | c :: rest => if p c then repRun p n k rest else none

/-- CPS matcher: `mrun r l g k` tries to match `r` at the head of `l` with
captured groups `g`, calling `k` on the remainder for each candidate in
Python's backtracking preference order. -/
def mrun {α : Type} : RE → List Char → List (Nat × List Char) →
    (List Char → List (Nat × List Char) → Option α) → Option α
  | .eps, l, g, k => k l g
  | .cls p, l, g, k =>
    match l with
    | [] => none
    | c :: r => if p c then k r g else none
  | .seq a b, l, g, k => mrun a l g (fun l' g' => mrun b l' g' k)
  | .alt a b, l, g, k =>
    match mrun a l g k with
    | some r => some r
    | none => mrun b l g k
  | .optG a, l, g, k =>
    match mrun a l g k with
    | some r => some r
    | none => k l g
  | .optL a, l, g, k =>
    match k l g with
    | some r => some r
    | none => mrun a l g k
  | .starG p, l, g, k => starGRun p (fun l' => k l' g) l
  | .starL p, l, g, k => starLRun p (fun l' => k l' g) l
  | .plusG p, l, g, k =>
    match l with
    | [] => none
    | c :: r => if p c then starGRun p (fun l' => k l' g) r else none
  | .plusL p, l, g, k =>
    match l with
    | [] => none
    | c :: r => if p c then starLRun p (fun l' => k l' g) r else none
  | .repN p n, l, g, k => repRun p n (fun l' => k l' g) l
  | .grp i a, l, g, k =>
    mrun a l g (fun l' g' => k l' ((i, l.take (l.length - l'.length)) :: g'))

/-- Number of capture groups a pattern defines (`len(match.groups())`). -/
def reGroupCount : RE → Nat
  | .eps | .cls _ | .starG _ | .starL _ | .plusG _ | .plusL _ | .repN _ _ => 0
  | .seq a b | .alt a b => max (reGroupCount a) (reGroupCount b)
  | .optG a | .optL a => reGroupCount a
  | .grp i a => max i (reGroupCount a)

/-- A successful `re.search` result. -/
structure PyMatch where
  group0 : String
  groups : List (Nat × String)
  ngroups : Nat
  deriving DecidableEq, Repr

/-- `match.group(i)`; the dispatch code only reads groups that participated
in the match. -/
def PyMatch.group (m : PyMatch) (i : Nat) : String :=
  ((m.groups.find? (fun p => p.1 == i)).map Prod.snd).getD ""

/-- Try a whole-pattern match at the head of each successive suffix
(`re.search` scans left to right). -/
def researchAux (r : RE) : List Char → Option (List Char × List (Nat × List Char))
  | [] => mrun r [] [] (fun _ g => some ([], g))
  | c :: t =>
    match mrun r (c :: t) [] (fun rest g =>
        some ((c :: t).take ((c :: t).length - rest.length), g)) with
    | some res => some res
    | none => researchAux r t

/-- `re.search(pattern, s)`. -/
def research (r : RE) (s : String) : Option PyMatch :=
  (researchAux r s.data).map (fun res =>
    { group0 := ⟨res.1⟩,
      groups := res.2.map (fun p => (p.1, String.mk p.2)),
      ngroups := reGroupCount r })

/-! ### Pattern constructors -/

/-- Literal string. -/
def lit (s : String) : RE :=
  s.data.foldr (fun c r => RE.seq (RE.cls (fun x => x == c)) r) RE.eps

/-- Concatenation of a list of patterns. -/
def rcat (l : List RE) : RE := l.foldr RE.seq RE.eps

/-- Left-preferring alternation of a list of patterns. -/
def altL : List RE → RE
  | [] => RE.eps
  | [x] => x
  | x :: y :: t => RE.alt x (altL (y :: t))

def anyChar (c : Char) : Bool := c != '\n'
def wsP : RE := RE.plusG isSpaceChar       -- `\s+`
def wsS : RE := RE.starG isSpaceChar       -- `\s*`
def wordP : RE := RE.plusG isWordChar      -- `\w+`
def digitP : RE := RE.plusG Char.isDigit   -- `\d+`
def dotP : RE := RE.plusG anyChar          -- `.+`
def dotPL : RE := RE.plusL anyChar         -- `.+?`
def dotS : RE := RE.starG anyChar          -- `.*`
def dotSL : RE := RE.starL anyChar         -- `.*?`
def aposChar : Char := Char.ofNat 39

example : (research (rcat [lit "ab", RE.grp 1 dotPL, lit "d"]) "xxabcd").map
    (fun m => (m.group0, m.group 1)) = some ("abcd", "c") := by decide
example : research (lit "xyz") "abc" = none := by decide

/-! ## AIEngine (src/core/ai_engine.py) -/

/-- The response-shaped result `{response, sources, confidence}`; the float
confidences 0.0 / 0.3 / 0.7 / 0.9 / 1.0 are modelled in `ℚ`. -/
structure Response where
  response : String
  sources : List String
  confidence : ℚ
  deriving DecidableEq, Repr

/-- One conversation turn `{role, content}`. -/
structure Turn where
  role : String
  content : String
  deriving DecidableEq, Repr

/-- One entry of `self.recent_actions`. -/
structure RecentAction where
  timestamp : String
  action : String
  details : List (String × String)
  deriving DecidableEq, Repr

/-- A raised Python exception (only `TypeError` escapes to the orchestrator
in the embedded pipeline). -/
inductive PyErr where
  | typeError (msg : String)
  deriving DecidableEq, Repr

/-- `... missing 1 required positional argument: '<arg>'` for a bound method
`MemoryManager.<fn>` called with too few arguments (CPython qualname
format). -/
def missingArg (fn arg : String) : String :=
  "MemoryManager." ++ fn ++ "() missing 1 required positional argument: " ++
  apos ++ arg ++ apos

/-- The semantic tag attached to each memorize pattern
(`memory_type`, plus the optional direct key of the last two patterns). -/
inductive MType where
  | reminder
  | borrowedFrom
  | lentTo
  | contact
  | debt
  | personal (extraKey : Option String)
  deriving DecidableEq, Repr

/-- Outcome of dispatching one matched memorize pattern: return a response,
raise (caught by the handler's `except`), or fall through to the next
pattern. -/
inductive HandlerStep where
  | ret (r : Response) (fs : MemFS)
  | raised (msg : String) (fs : MemFS)
  | fallthrough

/-- `[-\.\s]` of the aadhaar pattern. -/
def dashDotWs (c : Char) : Bool := c == '-' || c == '.' || isSpaceChar c

/-- The ordered pattern list of `_handle_memorize_command`
(ai_engine.py:220-250), transliterated pattern by pattern. -/
def memorizePatterns : List (RE × MType) :=
  [ -- (?:remember|memorize)\s+(?:that|this)?\s*(?:i\s+)?need\s+to\s+(.+?)\s+at\s+(\d+\s*(?:am|pm))
    (rcat [altL [lit "remember", lit "memorize"], wsP,
           RE.optG (altL [lit "that", lit "this"]), wsS,
           RE.optG (rcat [lit "i", wsP]), lit "need", wsP, lit "to", wsP,
           RE.grp 1 dotPL, wsP, lit "at", wsP,
           RE.grp 2 (rcat [digitP, wsS, altL [lit "am", lit "pm"]])],
     .reminder),
    -- (?:remember|memorize)\s+(?:that|this)?\s*(?:i\s+)?have\s+(.+?)\s+at\s+(\d+\s*(?:am|pm))
    (rcat [altL [lit "remember", lit "memorize"], wsP,
           RE.optG (altL [lit "that", lit "this"]), wsS,
           RE.optG (rcat [lit "i", wsP]), lit "have", wsP,
           RE.grp 1 dotPL, wsP, lit "at", wsP,
           RE.grp 2 (rcat [digitP, wsS, altL [lit "am", lit "pm"]])],
     .reminder),
    -- (?:remember|memorize)\s+(?:that|this)?\s*(?:i\s+)?need\s+to\s+(.+)
    (rcat [altL [lit "remember", lit "memorize"], wsP,
           RE.optG (altL [lit "that", lit "this"]), wsS,
           RE.optG (rcat [lit "i", wsP]), lit "need", wsP, lit "to", wsP,
           RE.grp 1 dotP],
     .reminder),
    -- (?:remember|memorize)\s+(?:that|this)?\s*(?:i\s+)?have\s+(.+)
    (rcat [altL [lit "remember", lit "memorize"], wsP,
           RE.optG (altL [lit "that", lit "this"]), wsS,
           RE.optG (rcat [lit "i", wsP]), lit "have", wsP, RE.grp 1 dotP],
     .reminder),
    -- (?:i\s+)?(?:take|took|borrow|borrowed)\s+(.+?)\s+from\s+(\w+)(?:\s+to\s+.+)?(?:\s+and\s+need\s+to\s+give\s+it\s+back)?
    (rcat [RE.optG (rcat [lit "i", wsP]),
           altL [lit "take", lit "took", lit "borrow", lit "borrowed"], wsP,
           RE.grp 1 dotPL, wsP, lit "from", wsP, RE.grp 2 wordP,
           RE.optG (rcat [wsP, lit "to", wsP, dotP]),
           RE.optG (rcat [wsP, lit "and", wsP, lit "need", wsP, lit "to", wsP,
                          lit "give", wsP, lit "it", wsP, lit "back"])],
     .borrowedFrom),
    -- (?:i\s+)?need\s+to\s+return\s+(.+?)\s+to\s+(\w+)
    (rcat [RE.optG (rcat [lit "i", wsP]), lit "need", wsP, lit "to", wsP,
           lit "return", wsP, RE.grp 1 dotPL, wsP, lit "to", wsP,
           RE.grp 2 wordP],
     .borrowedFrom),
    -- (?:i\s+)?have\s+(.+?)\s+that\s+belongs\s+to\s+(\w+)
    (rcat [RE.optG (rcat [lit "i", wsP]), lit "have", wsP, RE.grp 1 dotPL,
           wsP, lit "that", wsP, lit "belongs", wsP, lit "to", wsP,
           RE.grp 2 wordP],
     .borrowedFrom),
    -- (?:i\s+)?lent\s+(.+?)\s+to\s+(\w+)
    (rcat [RE.optG (rcat [lit "i", wsP]), lit "lent", wsP, RE.grp 1 dotPL,
           wsP, lit "to", wsP, RE.grp 2 wordP],
     .lentTo),
    -- (\w+)\s+has\s+my\s+(.+)
    (rcat [RE.grp 1 wordP, wsP, lit "has", wsP, lit "my", wsP, RE.grp 2 dotP],
     .lentTo),
    -- (?:remember|memorize|store)\s+(?:that\s+)?(?:my\s+)?(\w+)(?:\'s)?\s+phone\s+(?:number|no)?\s+(?:is|as)\s+(\d{10})
    (rcat [altL [lit "remember", lit "memorize", lit "store"], wsP,
           RE.optG (rcat [lit "that", wsP]), RE.optG (rcat [lit "my", wsP]),
           RE.grp 1 wordP, RE.optG (rcat [RE.cls (fun c => c == aposChar), lit "s"]),
           wsP, lit "phone", wsP, RE.optG (altL [lit "number", lit "no"]), wsP,
           altL [lit "is", lit "as"], wsP, RE.grp 2 (RE.repN Char.isDigit 10)],
     .contact),
    -- (?:remember|memorize|store)\s+(?:that\s+)?(?:my\s+)?(\w+)(?:\'s)?\s+phone\s+(?:number|no)?\s+(\d{10})
    (rcat [altL [lit "remember", lit "memorize", lit "store"], wsP,
           RE.optG (rcat [lit "that", wsP]), RE.optG (rcat [lit "my", wsP]),
           RE.grp 1 wordP, RE.optG (rcat [RE.cls (fun c => c == aposChar), lit "s"]),
           wsP, lit "phone", wsP, RE.optG (altL [lit "number", lit "no"]), wsP,
           RE.grp 2 (RE.repN Char.isDigit 10)],
     .contact),
    -- (\w+)\s+owes?\s+me\s+(\d+)\s*(rupees?|rs)?
    (rcat [RE.grp 1 wordP, wsP, lit "owe", RE.optG (RE.cls (fun c => c == 's')),
           wsP, lit "me", wsP, RE.grp 2 digitP, wsS,
           RE.optG (RE.grp 3 (altL [rcat [lit "rupee",
             RE.optG (RE.cls (fun c => c == 's'))], lit "rs"]))],
     .debt),
    -- (?:remember|memorize)\s+(?:that\s+)?(\w+)\s+owes?\s+me\s+(\d+)\s*(rupees?|rs)?
    (rcat [altL [lit "remember", lit "memorize"], wsP,
           RE.optG (rcat [lit "that", wsP]), RE.grp 1 wordP, wsP, lit "owe",
           RE.optG (RE.cls (fun c => c == 's')), wsP, lit "me", wsP,
           RE.grp 2 digitP, wsS,
           RE.optG (RE.grp 3 (altL [rcat [lit "rupee",
             RE.optG (RE.cls (fun c => c == 's'))], lit "rs"]))],
     .debt),
    -- memorize\s+my\s+([\w\s]+?)\s+as\s+(.+)
    (rcat [lit "memorize", wsP, lit "my", wsP,
           RE.grp 1 (RE.plusL (fun c => isWordChar c || isSpaceChar c)), wsP,
           lit "as", wsP, RE.grp 2 dotP],
     .personal none),
    -- remember\s+my\s+([\w\s]+?)\s+is\s+(.+)
    (rcat [lit "remember", wsP, lit "my", wsP,
           RE.grp 1 (RE.plusL (fun c => isWordChar c || isSpaceChar c)), wsP,
           lit "is", wsP, RE.grp 2 dotP],
     .personal none),
    -- remember\s+that\s+my\s+([\w\s]+?)\s+is\s+(.+)
    (rcat [lit "remember", wsP, lit "that", wsP, lit "my", wsP,
           RE.grp 1 (RE.plusL (fun c => isWordChar c || isSpaceChar c)), wsP,
           lit "is", wsP, RE.grp 2 dotP],
     .personal none),
    -- .*aadhaar.*?(\d{4}[-\.\s]??\d{4}[-\.\s]??\d{4}).*
    (rcat [dotS, lit "aadhaar", dotSL,
           RE.grp 1 (rcat [RE.repN Char.isDigit 4, RE.optL (RE.cls dashDotWs),
                           RE.repN Char.isDigit 4, RE.optL (RE.cls dashDotWs),
                           RE.repN Char.isDigit 4]), dotS],
     .personal (some "aadhaar_number")),
    -- .*phone.*?(\d{10}).*
    (rcat [dotS, lit "phone", dotSL, RE.grp 1 (RE.repN Char.isDigit 10), dotS],
     .personal (some "phone_number")) ]

/-- The generic note patterns tried after the main list
(ai_engine.py:337-342). -/
def genericNotePatterns : List RE :=
  [ rcat [altL [lit "memorize", lit "remember"], wsP,
          altL [lit "that", lit "this"], wsP, RE.grp 1 dotP],
    rcat [lit "store", wsP, lit "this:", wsS, RE.grp 1 dotP],
    rcat [lit "note", wsP, lit "that", wsP, RE.grp 1 dotP],
    rcat [lit "remind", wsP, lit "me", wsP, lit "that", wsP, RE.grp 1 dotP] ]

/-- The `memory_type` dispatch inside the pattern loop of
`_handle_memorize_command` (ai_engine.py:252-334).  All `memory_manager`
calls there omit `user_id`, so the arguments bind shifted: the reminder and
note writes bind `user_id:="important_notes"`, the borrowed-item write binds
`user_id:=item`, and the contact/debt/personal writes are short one argument
and raise `TypeError` (caught by the handler's `except`). -/
def memorizeDispatch (env : Env) (query : String) (m : PyMatch) (t : MType)
    (fs : MemFS) : HandlerStep :=
  match t with
  | .reminder =>
    let content :=
      if m.ngroups == 2 then
        pyStrip (m.group 1) ++ " at " ++ pyStrip (m.group 2)
      else pyStrip (m.group 1)
    let key := "reminder_" ++ toString (env.hashFn content % 10000)
    -- memorize("important_notes", key, content, f"Reminder: {query}")
    let sfs := memorize env "important_notes" key content
                 ("Reminder: " ++ query) "" fs
    if sfs.1 then
      .ret { response := "✅ I" ++ apos ++ "ve set a reminder: " ++ apos ++
                         content ++ apos,
             sources := ["memory_system"], confidence := 1 } sfs.2
    else .fallthrough
  | .borrowedFrom =>
    let item := pyStrip (m.group 1)
    let person := pyStrip (m.group 2)
    let notes := "Need to return it"
    -- memorize_borrowed_item(item, person, "borrowed_from", notes):
    -- binds user_id:=item, item:=person, person:="borrowed_from", action:=notes
    let sfs := memorize_borrowed_item env item person "borrowed_from" notes "" fs
    if sfs.1 then
      .ret { response := "✅ I" ++ apos ++ "ve recorded that you borrowed " ++
                         apos ++ item ++ apos ++ " from " ++ person ++
                         ". I" ++ apos ++ "ll remind you to return it.",
             sources := ["memory_system"], confidence := 1 } sfs.2
    else .fallthrough
  | .lentTo =>
    -- ai_engine.py:286-296: the `elif memory_type == 'lent_to'` arm is
    -- indented inside the borrowed_from branch, chained to `if success:`,
    -- so no arm handles lent_to and the loop continues.
    .fallthrough
  | .contact =>
    -- memorize_contact(name, phone): `phone` missing
    .raised (missingArg "memorize_contact" "phone") fs
  | .debt =>
    -- memorize_debt(person, float(amount)): `amount` missing
    .raised (missingArg "memorize_debt" "amount") fs
  | .personal _ =>
    -- memorize("personal_info", key, value.strip()): `value` missing
    .raised (missingArg "memorize" "value") fs

/-- The pattern loop of `_handle_memorize_command`. -/
def memorizeLoop (env : Env) (query ql : String) (fs : MemFS) :
    List (RE × MType) → HandlerStep
  | [] => .fallthrough
  | (r, t) :: rest =>
    match research r ql with
    | some m =>
      match memorizeDispatch env query m t fs with
      | .fallthrough => memorizeLoop env query ql fs rest
      | s => s
    | none => memorizeLoop env query ql fs rest

/-- The generic note loop of `_handle_memorize_command`
(ai_engine.py:344-359). -/
def genericNoteLoop (env : Env) (query ql : String) (fs : MemFS) :
    List RE → HandlerStep
  | [] => .fallthrough
  | r :: rest =>
    match research r ql with
    | some m =>
      let content := pyStrip (m.group 1)
      let words := (pySplitWs content).take 3
      let key_base := lowerStr (pyJoin "_" words)
      let key := "note_" ++ key_base ++ "_" ++ toString (env.hashFn content % 1000)
      -- memorize("important_notes", key, content, f"User note: {query}")
      let sfs := memorize env "important_notes" key content
                   ("User note: " ++ query) "" fs
      if sfs.1 then
        .ret { response := "✅ I" ++ apos ++ "ve stored: " ++ apos ++ content ++
                           apos,
               sources := ["memory_system"], confidence := (9 : ℚ)/10 } sfs.2
      else genericNoteLoop env query ql fs rest
    | none => genericNoteLoop env query ql fs rest

/-- The help message returned when no memorize pattern matches
(ai_engine.py:362-391). -/
def memorizeHelpText : String :=
  "I understand you want me to memorize something. Please use one of these formats:\n\n" ++
  "    **For reminders:**\n" ++
  "    • `remember that I need to call Abhi Ram at 2 pm`\n" ++
  "    • `memorize that I have meeting tomorrow at 10 AM`\n" ++
  "    • `remember this: I need to buy milk`\n\n" ++
  "    **For personal info:**\n" ++
  "    • `memorize my Aadhaar number as 1234-5678-9012`\n" ++
  "    • `remember my car license plate is ABC123`\n\n" ++
  "    **For borrowed items:**\n" ++
  "    • `I took phone charger from Rashmi`\n" ++
  "    • `I need to return book to Rohan`\n\n" ++
  "    **For contacts:**\n" ++
  "    • `remember tulasi" ++ apos ++ "s phone number as 7278949280`\n" ++
  "    • `memorize my father" ++ apos ++ "s phone number 9492773201`\n\n" ++
  "    **For debts:**\n" ++
  "    • `Arjun owes me 5000 rupees`\n" ++
  "    • `remember that Abhi owes me 2000 rupees`\n\n" ++
  "    **Or simply:**\n" ++
  "    • `memorize that [your note]`\n" ++
  "    • `remember this: [your note]`"

/-- `AIEngine._handle_memorize_command(query)`. -/
def _handle_memorize_command (env : Env) (query : String) (fs : MemFS) :
    Response × MemFS :=
  -- `self.memory_manager` is set by SecondBrain.__init__, so the
  -- "Memory system is not available" early return is never taken.
  let query_lower := lowerStr query
  match memorizeLoop env query query_lower fs memorizePatterns with
  | .ret r fs' => (r, fs')
  | .raised msg fs' =>
    ({ response := "❌ Error memorizing information: " ++ msg,
       sources := [], confidence := 0 }, fs')
  | .fallthrough =>
    match genericNoteLoop env query query_lower fs genericNotePatterns with
    | .ret r fs' => (r, fs')
    | .raised msg fs' =>
      ({ response := "❌ Error memorizing information: " ++ msg,
         sources := [], confidence := 0 }, fs')
    | .fallthrough =>
      ({ response := memorizeHelpText, sources := [], confidence := 0 }, fs)

/-- The error response of `_handle_recall_command`'s `except` clause. -/
def errRecall (msg : String) : Response :=
  { response := "❌ Error recalling information: " ++ msg,
    sources := [], confidence := 0 }

/-- `AIEngine._handle_recall_command(query, category, key)`.

Every `memory_manager` call in it omits `user_id`: the four special-topic
branches raise `TypeError` immediately (caught by the `except` →
error response); the third-party-contact branch returns `None` (yields to
document retrieval); the standard branch calls `recall(key, category)`,
which binds `user_id:=key`, `key:=category`, and then always raises —
`search_memories(key)` when nothing was recalled, or
`export_memories_to_vector(self.vector_store)` when something was — so the
success formatting at ai_engine.py:532-540 and the memory listing at
543-569 are unreachable. -/
def _handle_recall_command (env : Env) (query category key : String)
    (fs : MemFS) : Option Response × MemFS :=
  let query_lower := lowerStr query
  if ["meeting", "reminder", "appointment", "schedule", "call", "todo"].any
      (fun w => strContains query_lower w) then
    -- list_memories_by_category("important_notes"): `category` missing
    (some (errRecall (missingArg "list_memories_by_category" "category")), fs)
  else if ["borrow", "lend", "return", "give back", "charger", "item"].any
      (fun w => strContains query_lower w) then
    -- get_items_to_return(): `user_id` missing
    (some (errRecall (missingArg "get_items_to_return" "user_id")), fs)
  else if ["owe", "debt", "borrow", "loan", "money"].any
      (fun w => strContains query_lower w) then
    -- get_all_debts(): `user_id` missing
    (some (errRecall (missingArg "get_all_debts" "user_id")), fs)
  else if ["phone", "contact", "number", "call"].any
      (fun w => strContains query_lower w) then
    if !(["my phone", "my number", "my contact"].any
        (fun w => strContains query_lower w)) then
      -- third-party contact: yield to the document path
      (none, fs)
    else
      -- get_all_contacts(): `user_id` missing
      (some (errRecall (missingArg "get_all_contacts" "user_id")), fs)
  else
    -- memory = recall(key, category): binds user_id:=key, key:=category
    let mfs := recall_ env key category none fs
    match mfs.1 with
    | none =>
      -- search_memories(key): `search_term` missing
      (some (errRecall (missingArg "search_memories" "search_term")), mfs.2)
    | some _ =>
      -- export_memories_to_vector(self.vector_store): `user_id` missing
      (some (errRecall (missingArg "export_memories_to_vector" "user_id")), mfs.2)

/-- The keyword triggers for the WRITE path (ai_engine.py:163). -/
def memorizeKeywords : List String :=
  ["memorize", "remember this", "store this", "save this", "remember my",
   "memorize my"]

/-- The ordered recall patterns of `_check_memory_query`
(ai_engine.py:168-189): `(pattern, category, optional direct key)`.
A two-element source entry and a three-element entry carrying `None` behave
identically (`key = extra[0] if extra else None`), so both are `none` here. -/
def recallPatterns : List (RE × String × Option String) :=
  [ (rcat [lit "what is my ", RE.grp 1 dotS], "personal_info", none),
    (rcat [lit "what", RE.cls (fun c => c == aposChar), lit "s my ",
           RE.grp 1 dotS], "personal_info", none),
    (rcat [lit "show me my ", RE.grp 1 dotS], "personal_info", none),
    (rcat [lit "tell me my ", RE.grp 1 dotS], "personal_info", none),
    (rcat [lit "what are my ", RE.grp 1 dotS], "personal_info", none),
    (rcat [lit "give me my ", RE.grp 1 dotS], "personal_info", none),
    (rcat [dotS, lit "my phone number", dotS], "personal_info", some "phone_number"),
    (rcat [dotS, lit "my aadhaar", dotS], "personal_info", some "aadhaar_number"),
    (rcat [dotS, lit "my aadhar", dotS], "personal_info", some "aadhaar_number"),
    (rcat [dotS, lit "my address", dotS], "personal_info", some "address"),
    (rcat [dotS, lit "my email", dotS], "personal_info", some "email"),
    (rcat [dotS, lit "my license", dotS], "personal_info", some "license"),
    (rcat [dotS, lit "my password", dotS], "credentials", none),
    (rcat [dotS, lit "my username", dotS], "credentials", none),
    (rcat [lit "my ", RE.grp 1 dotS], "personal_info", none) ]

/-- The recall-pattern loop of `_check_memory_query` (ai_engine.py:191-203). -/
def recallPatternLoop (env : Env) (query ql : String) (fs : MemFS) :
    List (RE × String × Option String) → Option (Option Response × MemFS)
  | [] => none
  | (r, category, extra) :: rest =>
    match research r ql with
    | some m =>
      let key :=
        match extra with
        | some k => k
        | none =>
          if m.ngroups > 0 then replaceSpaceUnderscore (m.group 1)
          else replaceSpaceUnderscore m.group0
      some (_handle_recall_command env query category key fs)
    | none => recallPatternLoop env query ql fs rest

/-- `AIEngine._check_memory_query(query)`: WRITE keyword check first, then
the ordered recall patterns, else no memory result. -/
def _check_memory_query (env : Env) (query : String) (fs : MemFS) :
    Option Response × MemFS :=
  let query_lower := pyStrip (lowerStr query)
  if memorizeKeywords.any (fun kw => strContains query_lower kw) then
    let rfs := _handle_memorize_command env query fs
    (some rfs.1, rfs.2)
  else
    match recallPatternLoop env query query_lower fs recallPatterns with
    | some res => res
    | none => (none, fs)

/-- `dict.get(k, d)` over a detail dict. -/
def detailGet (details : List (String × String)) (k d : String) : String :=
  (dictGet details k).getD d

/-- `item['metadata'].get('file_name', item['metadata'].get('file_path',
'Unknown'))`; an absent dict key is modelled as `""`. -/
def metaGetName (m : Meta) : String :=
  if m.file_name != "" then m.file_name
  else if m.file_path != "" then m.file_path
  else "Unknown"

/-- `item['metadata'].get('file_path', 'Unknown')`. -/
def metaGetPath (m : Meta) : String :=
  if m.file_path != "" then m.file_path else "Unknown"

/-- `list(set(sources))`; Python set order is unspecified, modelled as
first-occurrence order. -/
def dedupAux : List String → List String → List String
  | [], _ => []
  | x :: t, seen => if seen.contains x then dedupAux t seen
                    else x :: dedupAux t (x :: seen)

def dedupFirst (l : List String) : List String := dedupAux l []

/-- `AIEngine._enhance_context_with_recent_actions(context, query)`. -/
def _enhance_context_with_recent_actions (recent_actions : List RecentAction)
    (context : List SearchResult) (query : String) : List SearchResult :=
  let image_keywords := ["last given pic", "recent image", "previous image",
                         "last picture", "recent pic"]
  if image_keywords.any (fun kw => strContains (lowerStr query) kw) then
    let recent_images := recent_actions.reverse.filterMap (fun a =>
      if a.action == "ingest" &&
         [".jpg", ".jpeg", ".png", ".gif", ".bmp"].contains
           (detailGet a.details "file_type" "") then
        some a.details
      else none)
    match recent_images with
    | [] => context
    | first :: _ =>
      let special : SearchResult :=
        { content := "RECENT IMAGES INFO: The user recently ingested these images: [" ++
            pyJoin ", " (recent_images.map (fun d =>
              apos ++ detailGet d "file_name" "" ++ apos)) ++
            "]. The most recent is " ++ apos ++
            detailGet first "file_name" "" ++ apos ++ ".",
          metadata := { file_path := "system_recent_actions", file_name := "",
                        file_type := "system", ingestion_time := "",
                        file_size := 0, chunk_index := none,
                        chunk_count := none, user_id := none,
                        is_personal_memory := false },
          distance := 0 }
      special :: context
  else context

/-- `AIEngine._prepare_recent_actions()`. -/
def _prepare_recent_actions (recent_actions : List RecentAction) : String :=
  if recent_actions.isEmpty then "No recent actions recorded."
  else
    "Recent User Actions (most recent first):\n" ++
    String.join (((recent_actions.drop (recent_actions.length - 3)).reverse).map
      (fun a =>
        if a.action == "ingest" then
          "- Ingested file: " ++ detailGet a.details "file_name" "Unknown" ++
          " (" ++ detailGet a.details "file_type" "Unknown type" ++ ")\n"
        else if a.action == "query" then
          "- Asked: " ++ detailGet a.details "query" "Unknown" ++ "\n"
        else ""))

/-- `content[:400] + marker + content[-400:]` truncation of
`_prepare_context` for chunks longer than 800 characters. -/
def truncContent (content : String) : String :=
  if content.length > 800 then
    ⟨content.data.take 400⟩ ++ "\n[...content truncated...]\n" ++
    ⟨content.data.drop (content.data.length - 400)⟩
  else content

/-- `AIEngine._prepare_context(context)`. -/
def _prepare_context (context : List SearchResult) : String :=
  if context.isEmpty then "No relevant context found in the knowledge base."
  else
    "CONTEXT FROM YOUR KNOWLEDGE BASE:\n\n" ++
    String.join (((List.range context.length).zip context).map (fun it =>
      let m := it.2.metadata
      let file_type := if m.file_type != "" then m.file_type else "Unknown"
      "--- ITEM " ++ toString (it.1 + 1) ++ ": " ++ metaGetName m ++ " (" ++
      file_type ++ ") ---\n" ++
      truncContent it.2.content ++ "\n\n" ++
      (match m.chunk_index with
       | some ci => "[Chunk " ++ toString (ci + 1) ++ " of " ++
                    toString (m.chunk_count.getD 0) ++ "]\n"
       | none => "") ++
      "\n"))

/-- `AIEngine._prepare_conversation_history(history)`. -/
def _prepare_conversation_history (history : Option (List Turn)) : String :=
  match history with
  | none => "No previous conversation in this session."
  | some h =>
    if h.isEmpty then "No previous conversation in this session."
    else
      "PREVIOUS CONVERSATION:\n" ++
      String.join ((h.drop (h.length - 4)).map (fun msg =>
        (if msg.role == "user" then "USER" else "ASSISTANT") ++ ": " ++
        msg.content ++ "\n"))

/-- The system prompt of `generate_response` (ai_engine.py:98-124). -/
def systemPromptText : String :=
  "You are \"The Second Brain\" - a personal AI assistant that has access to all of the user" ++ apos ++ "s personal and professional information. \n" ++
  "            Your role is to help the user recall information, make connections between different pieces of knowledge, and provide intelligent responses based on their complete digital memory.\n\n" ++
  "SPECIAL MEMORY FEATURES:\n" ++
  "- The user can ask you to memorize information using commands like \"memorize\", \"remember this\", \"store this\"\n" ++
  "- You have access to the user" ++ apos ++ "s personal memories (phone numbers, IDs, important info)\n" ++
  "- When user asks about personal information, check the memory system first\n\n" ++
  "MEMORY COMMANDS USER CAN USE:\n" ++
  "- \"memorize my phone number as 1234567890\"\n" ++
  "- \"remember that my Aadhaar number is XXXX-XXXX-XXXX\" \n" ++
  "- \"store this: my car license plate is ABC123\"\n" ++
  "- \"what" ++ apos ++ "s my phone number?\"\n" ++
  "- \"show me my Aadhaar details\"\n\n" ++
  "SPECIAL INSTRUCTIONS FOR IMAGES:\n" ++
  "- When user asks about \"last given pic\", \"recent image\", \"previous image\", etc., refer to the most recently ingested image\n" ++
  "- When describing images, use the extracted OCR text and file metadata\n" ++
  "- If multiple images exist, mention the most recent one first\n" ++
  "- Provide detailed descriptions based on available text content\n\n" ++
  "GENERAL GUIDELINES:\n" ++
  "- Be precise and factual based on the context provided\n" ++
  "- If information isn" ++ apos ++ "t in the context, say so clearly\n" ++
  "- Make connections between different pieces of information when relevant\n" ++
  "- Maintain a helpful, professional tone\n" ++
  "- Reference specific file names when discussing documents or images"

/-- `AIEngine._call_groq` / `_call_openai`: the completion call is the
abstract `env.llm`; sources are the deduplicated context file names. -/
def _call_llm (env : Env) (system_prompt prompt : String)
    (context : List SearchResult) : Response :=
  { response := env.llm system_prompt prompt,
    sources := dedupFirst (context.map (fun it => metaGetName it.metadata)),
    confidence := (9 : ℚ)/10 }

/-- `AIEngine._fallback_response(query, context)`. -/
def _fallback_response (query : String) (context : List SearchResult) :
    Response :=
  let last : Response :=
    { response := "I found some relevant information in your knowledge base, but I" ++
        apos ++ "m currently unable to generate a detailed response. Please check your API configuration.",
      sources := context.map (fun it => metaGetPath it.metadata),
      confidence := (3 : ℚ)/10 }
  match context with
  | [] => last
  | first :: _ =>
    let content := first.content
    if strContains (lowerStr query) "key objectives" &&
       strContains (lowerStr content) "objective" then
      { response := "Based on your documents, I found information about project objectives in the context.",
        sources := context.map (fun it => metaGetPath it.metadata),
        confidence := (7 : ℚ)/10 }
    else if strContains (lowerStr query) "team" &&
        ["John", "Sarah", "Mike"].any (fun w => strContains content w) then
      { response := "The project team includes John Smith, Sarah Johnson, and Mike Chen.",
        sources := context.map (fun it => metaGetPath it.metadata),
        confidence := (7 : ℚ)/10 }
    else if strContains (lowerStr query) "budget" && strContains content "$" then
      { response := "The project budget is $150,000 according to your documents.",
        sources := context.map (fun it => metaGetPath it.metadata),
        confidence := (7 : ℚ)/10 }
    else last

/-- `AIEngine.generate_response(query, context, conversation_history)`.

The third component records whether an LLM completion (Groq/OpenAI) was
invoked.  The memory short-circuit (ai_engine.py:84-86) returns the memory
result before any context preparation or completion call.  Nothing in the
embedded body can raise, so the `except` clause producing the apology
response (ai_engine.py:147-153, see `apologyResponse`) is never taken
here — while the orchestrator-level `TypeError` of `SecondBrain.query`
is raised outside this `try`. -/
def generate_response (env : Env) (query : String)
    (context : List SearchResult) (conversation_history : Option (List Turn))
    (fs : MemFS) (recent_actions : List RecentAction) :
    Response × MemFS × Bool :=
  let mfs := _check_memory_query env query fs
  match mfs.1 with
  | some r => (r, mfs.2, false)
  | none =>
    let enhanced_context :=
      _enhance_context_with_recent_actions recent_actions context query
    let context_text := _prepare_context enhanced_context
    let history_text := _prepare_conversation_history conversation_history
    let prompt := history_text ++ "\n\nRecent User Actions:\n" ++
      _prepare_recent_actions recent_actions ++ "\n\nCurrent Query: " ++
      query ++ "\n\nRelevant Context from User" ++ apos ++ "s Memory:\n" ++
      context_text ++
      "\n\nPlease provide a helpful response based on the user" ++ apos ++
      "s query and available context:"
    if env.hasGroq then
      (_call_llm env systemPromptText prompt enhanced_context, mfs.2, true)
    else if env.hasOpenai then
      (_call_llm env systemPromptText prompt enhanced_context, mfs.2, true)
    else
      (_fallback_response query enhanced_context, mfs.2, false)

/-- The generic apology produced by `generate_response`'s `except` clause
(ai_engine.py:149-153). -/
def apologyResponse : Response :=
  { response := "I encountered an error while processing your request. Please try again.",
    sources := [], confidence := 0 }

/-! ## SecondBrain (src/main.py) -/

/-- The mutable state of a `SecondBrain` instance. -/
structure BrainState where
  user_conversations : List (String × List Turn)
  recent_actions : List RecentAction
  fs : MemFS
  coll : Collection
  deriving DecidableEq, Repr

/-- `AIEngine.add_recent_action(action, details)` (cap 10, FIFO). -/
def add_recent_action (env : Env) (recent_actions : List RecentAction)
    (action : String) (details : List (String × String)) : List RecentAction :=
  let ra := recent_actions ++ [{ timestamp := env.now, action := action,
                                 details := details }]
  if ra.length > 10 then ra.drop (ra.length - 10) else ra

/-- `SecondBrain.get_user_history(user_id)`: inserts an empty history if
absent, returns `(history, updated map)`. -/
def get_user_history (uc : List (String × List Turn)) (u : String) :
    List Turn × List (String × List Turn) :=
  match dictGet uc u with
  | some h => (h, uc)
  | none => ([], dictInsert uc u [])

/-- `SecondBrain.query(question, use_history=True, user_id=None)`
(main.py:82-123).

The call at main.py:101 is
`self.memory_manager.export_memories_to_vector(self.vector_store)` —
the required positional `user_id` is missing, so the call raises
`TypeError` before the vector search, the response generation and the
history update; the exception is not caught inside `query`.  The state
mutations made before the raise (history-map initialisation and the
recent-action append) persist, as they do on the Python object. -/
def SecondBrain.query (env : Env) (dist : String → Entry → Nat)
    (st : BrainState) (question : String) (use_history : Bool)
    (user_id : Option String) : Except PyErr Response × BrainState :=
  let hp :=
    if pyTruthy user_id && use_history then
      let gh := get_user_history st.user_conversations (user_id.getD "")
      (some gh.1, gh.2)
    else (none, st.user_conversations)
  let conversation_history := hp.1
  let st := { st with user_conversations := hp.2 }
  let ra := add_recent_action env st.recent_actions "query"
    [("query", question), ("user_id", user_id.getD ""), ("timestamp", "now")]
  let st := { st with recent_actions := ra }
  -- main.py:101: export_memories_to_vector(self.vector_store)
  let export_result : Except PyErr Bool :=
    .error (.typeError (missingArg "export_memories_to_vector" "user_id"))
  match export_result with
  | .error e => (.error e, st)
  | .ok _ =>
    -- unreachable continuation of the source text (main.py:104-123):
    let search_results := search dist st.coll question 5 none none
    let gr := generate_response env question search_results
                conversation_history st.fs st.recent_actions
    let st := { st with fs := gr.2.1 }
    let st :=
      if pyTruthy user_id then
        let u := user_id.getD ""
        let h := (dictGet st.user_conversations u).getD [] ++
                 [{ role := "user", content := question },
                  { role := "assistant", content := gr.1.response }]
        let h := if h.length > 20 then h.drop (h.length - 20) else h
        { st with user_conversations := dictInsert st.user_conversations u h }
      else st
    (.ok gr.1, st)

/-- `n` successive `query` calls by the same user with the same question,
keeping the (mutated) state each time, as the Flask route does when it
catches the per-request exception. -/
def runQueries (env : Env) (dist : String → Entry → Nat) (question : String)
    (user_id : String) : Nat → BrainState → BrainState
  | 0, st => st
  | n + 1, st =>
    runQueries env dist question user_id n
      (SecondBrain.query env dist st question true (some user_id)).2

/-! ## Concrete fixtures shared by the claim theorems -/

/-- A sample environment: fixed uuid/timestamp/hash and a trivial LLM. -/
def env0 : Env :=
  { newId := "id0", now := "t0", hashFn := fun _ => 0,
    llm := fun _ _ => "", hasGroq := true, hasOpenai := false }

/-- A second environment: a later timestamp and a fresh uuid. -/
def envB : Env :=
  { newId := "id1", now := "t1", hashFn := fun _ => 0,
    llm := fun _ _ => "", hasGroq := true, hasOpenai := false }

/-- A trivial embedding-distance oracle. -/
def dist0 : String → Entry → Nat := fun _ _ => 0

/-- A freshly initialised brain. -/
def st0 : BrainState :=
  { user_conversations := [], recent_actions := [], fs := [], coll := [] }

/-- A document chunk owned by user `bob`. -/
def bobEntry : Entry :=
  { id := "e1", document := "bob private notes",
    metadata := { file_path := "data/uploads/user_bob/notes.txt",
                  file_name := "notes.txt", file_type := ".txt",
                  ingestion_time := "t0", file_size := 17,
                  chunk_index := some 0, chunk_count := some 1,
                  user_id := some "bob", is_personal_memory := false } }

/-- Alice's store holding one contact `john smith phone`
(standardized `john_smith_phone`). -/
def fsJohn : MemFS :=
  (memorize env0 "alice" "contacts" "john smith phone" "9876543210" "" []).2

/-! ## Claim theorems -/

/-- C1: the claim is violated by the orchestrator.  `SecondBrain.query`
calls `self.vector_store.search(question, n_results=5)` (main.py:104)
without `user_id`, so no user filter is built and the top-k search is run
over every user's chunks: with the index holding only bob's chunk, the
search exactly as the orchestrator issues it (filters=None, user_id=None)
returns bob's chunk while handling alice's query, for every embedding
distance oracle.  (When a `user_id` IS passed — as app.py's `/search`
route does — `VectorStore.search` does filter to it.) -/
theorem C1_orchestrator_search_unfiltered :
    ∀ dist : String → Entry → Nat,
      (search dist [bobEntry] "what do my notes say" 5 none none).map
        (fun r => r.metadata.user_id) = [some "bob"] ∧
      (search dist [bobEntry] "what do my notes say" 5 none (some "alice")).map
        (fun r => r.metadata.user_id) = [] ∧
      "bob" ≠ "alice" :=
  fun _ => ⟨rfl, rfl, by decide⟩

/-- C3: the claim is violated: for every environment, state, question and
user, `SecondBrain.query` raises `TypeError` (the call at main.py:101
omits the required `user_id` argument of `export_memories_to_vector`)
instead of returning a response-shaped result; nothing inside `query`
catches it. -/
theorem C3_query_always_raises :
    ∀ (env : Env) (dist : String → Entry → Nat) (st : BrainState)
      (question : String) (use_history : Bool) (user_id : Option String),
      (SecondBrain.query env dist st question use_history user_id).1 =
        .error (.typeError
          (missingArg "export_memories_to_vector" "user_id")) :=
  fun _ _ _ _ _ _ => rfl

/-- C9: the claim is violated: every query raises before the history
update (main.py:114-121), so after 11 query/response exchanges by alice
the stored history has length 0, not 20 (only the empty history list is
ever created, by `get_user_history`). -/
theorem C9_history_empty_after_eleven_queries :
    ((dictGet (runQueries env0 dist0 "hello" "alice" 11 st0).user_conversations
        "alice").getD []).length = 0 ∧
    ¬(((dictGet (runQueries env0 dist0 "hello" "alice" 11
        st0).user_conversations "alice").getD []).length = 20) := by
  decide

/-- C6: the claim is violated: alice's store holds a record under
category `personal_info` with standardized key `my_phone`, yet
`recall("my phone", category="personal_info")` returns `None`: line 183
reads `self.memories[category]` — an attribute that does not exist — so
the `AttributeError` is caught and every category-scoped recall misses. -/
theorem C6_category_recall_always_none :
    (dictGet ((dictGet (load_user_memories
        (memorize env0 "alice" "personal_info" "my phone" "12345" "" []).2
        "alice") "personal_info").getD []) "my_phone").isSome = true ∧
    (recall_ env0 "alice" "my phone" (some "personal_info")
        (memorize env0 "alice" "personal_info" "my phone" "12345" "" []).2).1 =
      none := by
  decide

/-- C5: the claim is violated.  Alice's store is entirely empty after
excluding `contacts` (it holds exactly one contact), so the export text is
only the three header lines; the guard at memory_manager.py:445 compares
against the first header line alone and therefore passes, and a header-only
chunk IS inserted: after the export exactly one `is_personal_memory` chunk
exists for alice (the claim says zero).  The prior-export deletion did run:
the stale chunk `stale0` is gone. -/
theorem C5_empty_store_export_still_inserts :
    (export_memories_to_vector env0 fsJohn
        [{ id := "stale0", document := "old export",
           metadata := { file_path := "personal_memory_system_user_alice",
                         file_name := "personal_memories",
                         file_type := ".memory", ingestion_time := "t-1",
                         file_size := 10, chunk_index := some 0,
                         chunk_count := some 1, user_id := some "alice",
                         is_personal_memory := true } }, bobEntry]
        "alice").1 = true ∧
    ((export_memories_to_vector env0 fsJohn
        [{ id := "stale0", document := "old export",
           metadata := { file_path := "personal_memory_system_user_alice",
                         file_name := "personal_memories",
                         file_type := ".memory", ingestion_time := "t-1",
                         file_size := 10, chunk_index := some 0,
                         chunk_count := some 1, user_id := some "alice",
                         is_personal_memory := true } }, bobEntry]
        "alice").2.filter (fun e => e.metadata.is_personal_memory &&
          e.metadata.user_id == some "alice")).length = 1 ∧
    ¬(((export_memories_to_vector env0 fsJohn
        [{ id := "stale0", document := "old export",
           metadata := { file_path := "personal_memory_system_user_alice",
                         file_name := "personal_memories",
                         file_type := ".memory", ingestion_time := "t-1",
                         file_size := 10, chunk_index := some 0,
                         chunk_count := some 1, user_id := some "alice",
                         is_personal_memory := true } }, bobEntry]
        "alice").2.filter (fun e => e.metadata.is_personal_memory &&
          e.metadata.user_id == some "alice")).length = 0) := by
  decide

/-- C7 counterexample: the claim's recall half fails on the code.  With
`john smith phone` stored (standardized `john_smith_phone`),
`recall("John's Phone")` standardizes the query to `johns_phone`, which is
not a substring of `john_smith_phone`, does not contain it, and is not a
substring of the original key `john smith phone`, so the fuzzy scan finds
nothing and recall returns `None` — not the stored record. -/
theorem C7_fuzzy_recall_johns_phone_misses :
    (dictGet ((dictGet (load_user_memories fsJohn "alice") "contacts").getD [])
        "john_smith_phone").isSome = true ∧
    (recall_ env0 "alice" ("John" ++ apos ++ "s Phone") none fsJohn).1 =
      none := by
  decide

/-- C7 amended: `recall("John's Phone")` does NOT succeed — the fuzzy
matcher requires substring containment between the standardized keys or
within the original key, none of which holds for `johns_phone` vs
`john_smith_phone` — it returns `None` and leaves the store unchanged;
the forget half of the claim does hold: `forget("johns phone")` (non-exact)
returns false and leaves the store unchanged, and only the exact
standardized key `john_smith_phone` deletes. -/
theorem C7_recall_misses_forget_exact_only :
    (recall_ env0 "alice" ("John" ++ apos ++ "s Phone") none fsJohn) =
      (none, fsJohn) ∧
    forget "alice" "johns phone" none fsJohn = (false, fsJohn) ∧
    (forget "alice" "john_smith_phone" none fsJohn).1 = true := by
  decide

/-- C4 amended: the part of the short-circuit that the code does have.
Whenever `_check_memory_query` resolves the query as a memory command
(WRITE or READ), `generate_response` returns that memory-command result
directly: no context preparation and no LLM completion call happens inside
it (third component `false`).  The orchestrator, however, runs its memory
export and vector search *before* `generate_response`
(main.py:101-108) — and the export call raises, see the counterexample. -/
theorem C4_generate_response_short_circuits (env : Env) (query : String)
    (context : List SearchResult) (conversation_history : Option (List Turn))
    (fs : MemFS) (recent_actions : List RecentAction) (r : Response)
    (h : (_check_memory_query env query fs).1 = some r) :
    generate_response env query context conversation_history fs
      recent_actions = (r, (_check_memory_query env query fs).2, false) := by
  have hpair : _check_memory_query env query fs =
      (some r, (_check_memory_query env query fs).2) := by
    rw [← h]
  unfold generate_response
  rw [hpair]

/-- C4 witness: `"what is my x"` is resolved as a READ memory command, and
`generate_response` returns its result (here the handler's caught-TypeError
response) with no LLM call. -/
theorem C4_generate_response_short_circuits_witness :
    generate_response env0 "what is my x" [] none [] [] =
      (errRecall (missingArg "search_memories" "search_term"), [], false) :=
  C4_generate_response_short_circuits env0 "what is my x" [] none [] []
    (errRecall (missingArg "search_memories" "search_term")) (by decide)

/-- C4 counterexample: the claim as stated fails.  The query
`"memorize my x as 1"` is classified as a memorize command by the intent
resolver (first conjunct), yet handling it through the orchestrator does
not return the memory-command result: `SecondBrain.query` raises
`TypeError` at the memory-export step (main.py:101), before intent
resolution is ever reached (second conjunct). -/
theorem C4_write_query_returns_no_result :
    ((_check_memory_query env0 "memorize my x as 1" []).1).isSome = true ∧
    (SecondBrain.query env0 dist0 st0 "memorize my x as 1" true
        (some "alice")).1 =
      .error (.typeError (missingArg "export_memories_to_vector" "user_id")) := by
  constructor
  · decide
  · rfl

/-- C2: the claim is violated.  Alice's natural-language memorize command
`"remember this i need to call abhi at 2 pm"` — when it reaches the WRITE
handler — is not stored in alice's store at all: every `memory_manager`
call in `_handle_memorize_command` omits `user_id`, so
`memorize("important_notes", key, content, ...)` binds
`user_id:="important_notes"`, and the reminder lands in the store of the
pseudo-user `"important_notes"`, shared by whoever triggers a reminder
write.  Alice's own store is unchanged, the written record carries
`user_id = "important_notes"`, and a (hypothetical) authenticated user
whose id is `"important_notes"` would see it in `list_memories`.
(Through the full orchestrator the command does not even get this far:
`SecondBrain.query` raises `TypeError` first — see C3.) -/
theorem C2_memorize_command_crosses_user_store :
    (_handle_memorize_command env0 "remember this i need to call abhi at 2 pm"
        fsJohn).1.response =
      "✅ I" ++ apos ++ "ve set a reminder: " ++ apos ++
        "call abhi at 2 pm" ++ apos ∧
    dictGet (_handle_memorize_command env0
        "remember this i need to call abhi at 2 pm" fsJohn).2 "alice" =
      dictGet fsJohn "alice" ∧
    ((dictGet (load_user_memories (_handle_memorize_command env0
        "remember this i need to call abhi at 2 pm" fsJohn).2
        "important_notes") "reminder_0").getD []).map
          (fun km => (km.1, km.2.user_id, km.2.value)) =
      [("call_abhi_at_2_pm", "important_notes",
        "Reminder: remember this i need to call abhi at 2 pm")] := by
  decide

theorem dictGet_dictInsert_self {α : Type} (l : List (String × α)) (k : String)
    (v : α) : dictGet (dictInsert l k v) k = some v := by
  induction l with
  | nil => simp [dictInsert, dictGet]
  | cons hd t ih =>
    obtain ⟨k0, v0⟩ := hd
    by_cases h : k0 = k
    · simp [dictInsert, dictGet, h]
    · simp [dictInsert, dictGet, h, ih]

theorem dictGet_dictInsert_ne {α : Type} (l : List (String × α)) (k k' : String)
    (v : α) (h : k' ≠ k) : dictGet (dictInsert l k v) k' = dictGet l k' := by
  induction l with
  | nil => simp [dictInsert, dictGet, Ne.symm h]
  | cons hd t ih =>
    obtain ⟨k0, v0⟩ := hd
    by_cases h0 : k0 = k
    · subst h0
      simp [dictInsert, dictGet, Ne.symm h]
    · simp [dictInsert, dictGet, h0, ih]

theorem countP_zero_of_dictGet_none {α : Type} (l : List (String × α))
    (k : String) (h : dictGet l k = none) :
    l.countP (fun p => p.1 == k) = 0 := by
  induction l with
  | nil => simp
  | cons hd t ih =>
    obtain ⟨k0, v0⟩ := hd
    by_cases h0 : k0 = k
    · simp [dictGet, h0] at h
    · simp [dictGet, h0] at h
      simp [List.countP_cons, h0, ih h]

theorem countP_dictInsert {α : Type} (l : List (String × α)) (k : String)
    (v : α) (h : keysNodup l = true) :
    (dictInsert l k v).countP (fun p => p.1 == k) = 1 := by
  induction l with
  | nil => simp [dictInsert]
  | cons hd t ih =>
    obtain ⟨k0, v0⟩ := hd
    simp [keysNodup, dictMem] at h
    by_cases h0 : k0 = k
    · subst h0
      have hz : dictGet t k0 = none := by
        cases hg : dictGet t k0 with
        | none => rfl
        | some w => simp [hg] at h
      simp [dictInsert, List.countP_cons, countP_zero_of_dictGet_none t k0 hz]
    · simp [dictInsert, h0, List.countP_cons, ih h.2]

theorem keysNodup_dictInsert {α : Type} (l : List (String × α)) (k : String)
    (v : α) (h : keysNodup l = true) :
    keysNodup (dictInsert l k v) = true := by
  induction l with
  | nil => simp [dictInsert, keysNodup, dictMem, dictGet]
  | cons hd t ih =>
    obtain ⟨k0, v0⟩ := hd
    simp [keysNodup, dictMem] at h
    by_cases h0 : k0 = k
    · subst h0
      simp [dictInsert, keysNodup, dictMem]
      exact h
    · simp [dictInsert, h0, keysNodup, dictMem,
            dictGet_dictInsert_ne t k k0 v (fun hh => h0 hh)]
      exact ⟨h.1, ih h.2⟩

theorem allSnd_dictInsert {α : Type} (Q : α → Bool) (l : List (String × α))
    (k : String) (v : α) (hl : l.all (fun c => Q c.2) = true)
    (hv : Q v = true) : (dictInsert l k v).all (fun c => Q c.2) = true := by
  induction l with
  | nil => simp [dictInsert, hv]
  | cons hd t ih =>
    obtain ⟨k0, v0⟩ := hd
    rw [List.all_cons, Bool.and_eq_true] at hl
    by_cases h0 : k0 = k
    · simp [dictInsert, h0, List.all_cons, hv, hl.2]
    · rw [show dictInsert ((k0, v0) :: t) k v = (k0, v0) :: dictInsert t k v
            from by simp [dictInsert, h0]]
      rw [List.all_cons, Bool.and_eq_true]
      exact ⟨hl.1, ih hl.2⟩

theorem dictGet_eq_none {α : Type} (l : List (String × α)) (k : String)
    (h : dictMem l k = false) : dictGet l k = none := by
  cases hg : dictGet l k with
  | none => rfl
  | some v => simp [dictMem, hg] at h

theorem allSnd_dictGet {α : Type} (Q : α → Bool) (l : List (String × α))
    (k : String) (v : α) (hall : l.all (fun c => Q c.2) = true)
    (hg : dictGet l k = some v) : Q v = true := by
  induction l with
  | nil => simp [dictGet] at hg
  | cons hd t ih =>
    obtain ⟨k0, v0⟩ := hd
    rw [List.all_cons, Bool.and_eq_true] at hall
    by_cases h0 : k0 = k
    · simp [dictGet, h0] at hg
      exact hg ▸ hall.1
    · simp [dictGet, h0] at hg
      exact ih hall.2 hg

theorem keysNodup_getD (st : Store) (cat : String)
    (h : st.all (fun c => keysNodup c.2) = true) :
    keysNodup ((dictGet st cat).getD []) = true := by
  cases hg : dictGet st cat with
  | none => rfl
  | some v => exact allSnd_dictGet keysNodup st cat v h hg

/-- The `if category not in memories: memories[category] = {}` step. -/
theorem catInit_getD (ms : Store) (cat : String) :
    (dictGet (if dictMem ms cat then ms else dictInsert ms cat []) cat).getD []
      = (dictGet ms cat).getD [] := by
  by_cases h : dictMem ms cat = true
  · simp [h]
  · rw [Bool.not_eq_true] at h
    simp [h, dictGet_dictInsert_self, dictGet_eq_none ms cat h]

theorem keysNodup_catInit (ms : Store) (cat : String)
    (h : keysNodup ms = true) :
    keysNodup (if dictMem ms cat then ms else dictInsert ms cat []) = true := by
  by_cases hm : dictMem ms cat = true
  · simp [hm, h]
  · rw [Bool.not_eq_true] at hm
    simp [hm, keysNodup_dictInsert ms cat [] h]

theorem allSnd_catInit (ms : Store) (cat : String)
    (h : ms.all (fun c => keysNodup c.2) = true) :
    (if dictMem ms cat then ms else dictInsert ms cat []).all
      (fun c => keysNodup c.2) = true := by
  by_cases hm : dictMem ms cat = true
  · simp [hm, h]
  · rw [Bool.not_eq_true] at hm
    simp only [hm, if_false, Bool.false_eq_true]
    exact allSnd_dictInsert keysNodup ms cat [] h rfl

/-- The store written by one `memorize` call, seen through the next load. -/
theorem load_memorize (env : Env) (uid cat key value desc : String)
    (fs : MemFS) :
    load_user_memories (memorize env uid cat key value desc fs).2 uid =
      dictInsert
        (if dictMem (load_user_memories fs uid) cat
         then load_user_memories fs uid
         else dictInsert (load_user_memories fs uid) cat [])
        cat
        (dictInsert
          ((dictGet (if dictMem (load_user_memories fs uid) cat
                     then load_user_memories fs uid
                     else dictInsert (load_user_memories fs uid) cat [])
              cat).getD [])
          (create_memory_key key)
          { id := env.newId, original_key := key, value := value,
            description := desc, created_at := env.now,
            last_accessed := env.now, category := cat, user_id := uid }) := by
  show (dictGet (dictInsert fs uid _) uid).getD defaultStore = _
  rw [dictGet_dictInsert_self]
  rfl

theorem memorize_load_getD (env : Env) (uid cat key value desc : String)
    (fs : MemFS) :
    dictGet (load_user_memories (memorize env uid cat key value desc fs).2 uid)
        cat =
      some (dictInsert ((dictGet (load_user_memories fs uid) cat).getD [])
        (create_memory_key key)
        { id := env.newId, original_key := key, value := value,
          description := desc, created_at := env.now, last_accessed := env.now,
          category := cat, user_id := uid }) := by
  rw [load_memorize, dictGet_dictInsert_self, catInit_getD]

theorem memorize_wf (env : Env) (uid cat key value desc : String) (fs : MemFS)
    (h : storeWF (load_user_memories fs uid) = true) :
    storeWF (load_user_memories (memorize env uid cat key value desc fs).2 uid)
      = true := by
  rw [storeWF, Bool.and_eq_true] at h
  rw [load_memorize, storeWF, Bool.and_eq_true]
  constructor
  · exact keysNodup_dictInsert _ cat _ (keysNodup_catInit _ cat h.1)
  · refine allSnd_dictInsert keysNodup _ cat _ (allSnd_catInit _ cat h.2) ?_
    rw [catInit_getD]
    exact keysNodup_dictInsert _ (create_memory_key key) _
      (keysNodup_getD _ cat h.2)

theorem C8_memorize_twice_single_record (env1 env2 : Env)
    (uid cat key value : String) (fs : MemFS)
    (h : storeWF (load_user_memories fs uid) = true) :
    ((dictGet (load_user_memories
        (memorize env2 uid cat key value ""
          (memorize env1 uid cat key value "" fs).2).2 uid) cat).getD
      []).countP (fun p => p.1 == create_memory_key key) = 1 ∧
    dictGet ((dictGet (load_user_memories
        (memorize env2 uid cat key value ""
          (memorize env1 uid cat key value "" fs).2).2 uid) cat).getD [])
      (create_memory_key key) =
      some { id := env2.newId, original_key := key, value := value,
             description := "", created_at := env2.now,
             last_accessed := env2.now, category := cat, user_id := uid } ∧
    storeWF (load_user_memories
        (memorize env2 uid cat key value ""
          (memorize env1 uid cat key value "" fs).2).2 uid) = true := by
  have hwf1 := memorize_wf env1 uid cat key value "" fs h
  have hall1 : (load_user_memories (memorize env1 uid cat key value "" fs).2
      uid).all (fun c => keysNodup c.2) = true := by
    rw [storeWF, Bool.and_eq_true] at hwf1
    exact hwf1.2
  have hwf1' := memorize_wf env1 uid cat key value "" fs h
  have hg2 := memorize_load_getD env2 uid cat key value ""
    (memorize env1 uid cat key value "" fs).2
  have hnodup1 : keysNodup ((dictGet (load_user_memories
      (memorize env1 uid cat key value "" fs).2 uid) cat).getD []) = true :=
    keysNodup_getD _ cat hall1
  refine ⟨?_, ?_, memorize_wf env2 uid cat key value "" _ hwf1'⟩
  · rw [hg2, Option.getD_some]
    exact countP_dictInsert _ _ _ hnodup1
  · rw [hg2, Option.getD_some]
    exact dictGet_dictInsert_self _ _ _

theorem C8_witness :
    ((dictGet (load_user_memories
        (memorize envB "alice" "contacts" "My Phone" "1" ""
          (memorize env0 "alice" "contacts" "My Phone" "1" "" []).2).2
        "alice") "contacts").getD []).countP
      (fun p => p.1 == create_memory_key "My Phone") = 1 ∧
    dictGet ((dictGet (load_user_memories
        (memorize envB "alice" "contacts" "My Phone" "1" ""
          (memorize env0 "alice" "contacts" "My Phone" "1" "" []).2).2
        "alice") "contacts").getD []) (create_memory_key "My Phone") =
      some { id := envB.newId, original_key := "My Phone", value := "1",
             description := "", created_at := envB.now,
             last_accessed := envB.now, category := "contacts",
             user_id := "alice" } ∧
    storeWF (load_user_memories
        (memorize envB "alice" "contacts" "My Phone" "1" ""
          (memorize env0 "alice" "contacts" "My Phone" "1" "" []).2).2
        "alice") = true :=
  C8_memorize_twice_single_record env0 envB "alice" "contacts" "My Phone" "1"
    [] (by decide)

theorem standardChar_not_bad (c : Char) (h : badKeyChar c = true) :
    standardChar c = false := by
  cases hw : isWordChar c <;> cases hs : isSpaceChar c <;>
    cases hu : c.isUpper <;> simp_all [badKeyChar, standardChar]

theorem bad_key_ne_standard (key k : String) (hb : hasBadChar key = true)
    (hk : standardKey k = true) : key ≠ k := by
  intro heq
  subst heq
  rw [hasBadChar, List.any_eq_true] at hb
  obtain ⟨c, hc, hbad⟩ := hb
  rw [standardKey, List.all_eq_true] at hk
  have := hk c hc
  rw [standardChar_not_bad c hbad] at this
  exact Bool.false_ne_true this

theorem dictGet_none_of_bad_key (cd : List (String × Rec)) (key : String)
    (hb : hasBadChar key = true)
    (hcd : cd.all (fun km => standardKey km.1) = true) :
    dictGet cd key = none := by
  induction cd with
  | nil => rfl
  | cons hd t ih =>
    obtain ⟨k0, v0⟩ := hd
    rw [List.all_cons, Bool.and_eq_true] at hcd
    have hne : key ≠ k0 := bad_key_ne_standard key k0 hb hcd.1
    simp [dictGet, Ne.symm hne]
    exact ih hcd.2

theorem forgetScan_none_of_bad_key (key : String) (ms : Store)
    (hb : hasBadChar key = true) (hms : storeStandardized ms = true) :
    forgetScan key ms = none := by
  induction ms with
  | nil => rfl
  | cons hd t ih =>
    obtain ⟨cat, cd⟩ := hd
    rw [storeStandardized, List.all_cons, Bool.and_eq_true] at hms
    have hnone := dictGet_none_of_bad_key cd key hb hms.1
    rw [forgetScan]
    rw [show dictMem cd key = false from by rw [dictMem, hnone]; rfl]
    simp only [Bool.false_eq_true, if_false]
    rw [ih hms.2]

/-- C10: `forget` compares the caller's key verbatim against stored
standardized keys without normalizing it.  If every stored key of the
user's store is standardized (as `memorize` guarantees) and the given key
text contains an uppercase letter, whitespace, or punctuation — i.e. it
differs from any standardized form — then `forget` (with or without a
category) returns false and leaves the store unchanged. -/
theorem C10_forget_verbatim_key_fails (uid key : String)
    (category : Option String) (fs : MemFS)
    (h1 : storeStandardized (load_user_memories fs uid) = true)
    (h2 : hasBadChar key = true) :
    forget uid key category fs = (false, fs) := by
  cases category with
  | none =>
    simp only [forget]
    rw [forgetScan_none_of_bad_key key (load_user_memories fs uid) h2 h1]
  | some c =>
    simp only [forget]
    cases hg : dictGet (load_user_memories fs uid) c with
    | none => rfl
    | some cd =>
      rw [storeStandardized] at h1
      have hall : cd.all (fun km => standardKey km.1) = true :=
        allSnd_dictGet (fun cd => cd.all (fun km => standardKey km.1))
          (load_user_memories fs uid) c cd h1 hg
      have hmem : dictMem cd key = false := by
        rw [dictMem, dictGet_none_of_bad_key cd key h2 hall]
        rfl
      simp [hmem]

/-- C10 witness: alice stores original key `"My Phone!"` (standardized
`my_phone`); `forget` with the original key text returns false and deletes
nothing. -/
theorem C10_forget_verbatim_key_fails_witness :
    forget "alice" "My Phone!" none
      (memorize env0 "alice" "personal_info" "My Phone!" "1" "" []).2 =
      (false, (memorize env0 "alice" "personal_info" "My Phone!" "1" "" []).2) :=
  C10_forget_verbatim_key_fails "alice" "My Phone!" none
    (memorize env0 "alice" "personal_info" "My Phone!" "1" "" []).2
    (by decide) (by decide)
